import Mathlib

/-!
Shallow embedding of the auction-invoice-extractor pipeline
(normalization, tax classification / ledger mapping, date normalization,
retry wrapper) together with proofs of the specification claims.

JavaScript numbers are modelled as rationals (`ℚ`); the non-finite numbers
`NaN` and `±Infinity` get their own constructors in the untyped-value model.
Untyped JS payloads are modelled by the inductive `JsValue`.
-/

/-- Model of an untyped JavaScript value as it appears in a JSON-ish payload:
`null`, `undefined`, booleans, finite numbers (as rationals), `NaN`,
signed infinities, strings, arrays and objects (association lists). -/
inductive JsValue : Type
  | null : JsValue
  | undefined : JsValue
  | bool (b : Bool) : JsValue
  | num (q : ℚ) : JsValue
  | nan : JsValue
  | inf (negative : Bool) : JsValue
  | str (s : String) : JsValue
  | arr (xs : List JsValue) : JsValue
  | obj (fields : List (String × JsValue)) : JsValue

/-- JavaScript truthiness: everything is truthy except `null`, `undefined`,
`false`, `0`, `NaN` and the empty string. -/
def jsTruthy : JsValue → Bool
  | .null => false
  | .undefined => false
  | .bool b => b
  | .num q => decide (q ≠ 0)
  | .nan => false
  | .inf _ => true
  | .str s => decide (s ≠ "")
  | .arr _ => true
  | .obj _ => true

/-- Lookup of a property in an object's field list (first binding wins). -/
def jsGetField : List (String × JsValue) → String → JsValue
  | [], _ => .undefined
  | (k, v) :: rest, key => if k = key then v else jsGetField rest key

/-- Model of JavaScript (optional-chained) property access `v?.key`:
objects yield the bound value, everything else yields `undefined`. -/
def jsGet : JsValue → String → JsValue
  | .obj fields, key => jsGetField fields key
  | _, _ => .undefined

/-- Whether an object value carries the given own property (models `key in v`
for the object values of this payload model). -/
def jsHasKey : JsValue → String → Bool
  | .obj fields, key => fields.any (fun kv => kv.1 = key)
  | _, _ => false

/-- Whether `typeof v === "object"` holds (objects, arrays and `null`). -/
def jsIsObjectType : JsValue → Bool
  | .obj _ => true
  | .arr _ => true
  | .null => true
  | _ => false

/-- Model of the whitespace class used by JavaScript `String.prototype.trim`
(the code points exercised by this pipeline: space, tab, LF, VT, FF, CR and
no-break space). -/
def isJsWs (c : Char) : Bool :=
  c.toNat = 32 || c.toNat = 9 || c.toNat = 10 || c.toNat = 13 ||
    c.toNat = 11 || c.toNat = 12 || c.toNat = 160

/-- ASCII digit class `\d` (code points 48–57). -/
def isDigitChar (c : Char) : Bool :=
  48 ≤ c.toNat && c.toNat ≤ 57

/-- Model of JavaScript `trim()` on a character list: drop the whitespace
run at both ends. -/
def jsTrimL (l : List Char) : List Char :=
  (((l.dropWhile isJsWs).reverse).dropWhile isJsWs).reverse

/-- Model of JavaScript `trim()` on strings. -/
def jsTrimStr (s : String) : String :=
  String.mk (jsTrimL s.data)

/-- Longest digit run at the head of a character list, with the remainder. -/
def takeDigitsL : List Char → List Char × List Char
  | [] => ([], [])
  | c :: cs =>
    if isDigitChar c then
      let p := takeDigitsL cs
      (c :: p.1, p.2)
    else ([], c :: cs)

/-- Numeric value of a digit run (most significant digit first). -/
def digitsToNat (l : List Char) : ℕ :=
  l.foldl (fun a c => a * 10 + (c.toNat - 48)) 0

/-- Model of the JavaScript `Number(string)` coercion on the inputs this
pipeline feeds it: an optionally signed decimal literal (digits, optional
single decimal point). Other shapes (hex, exponents, `Infinity`) yield
`none`, standing for `NaN`; the callers below only test finiteness. -/
def jsParseNumber (s : String) : Option ℚ :=
  let l := jsTrimL s.data
  let signed : Bool × List Char :=
    match l with
    | '-' :: rest => (true, rest)
    | '+' :: rest => (false, rest)
    | _ => (false, l)
  let ip := takeDigitsL signed.2
  let mkNum : ℚ → Option ℚ := fun q => some (if signed.1 then -q else q)
  match ip.2 with
  | [] => if ip.1 = [] then none else mkNum (digitsToNat ip.1)
  | '.' :: fr =>
    let fp := takeDigitsL fr
    if fp.2 = [] && !(ip.1 = [] && fp.1 = []) then
      mkNum ((digitsToNat ip.1 : ℚ) + (digitsToNat fp.1 : ℚ) / (10 : ℚ) ^ fp.1.length)
    else none
  | _ => none

/-- Model of JavaScript `String(v)` on the values this pipeline passes it.
Number rendering is exact for integers; non-integral rationals are rendered
in `num/den` form (no claim below depends on that rendering). -/
def jsToString : JsValue → String
  | .null => "null"
  | .undefined => "undefined"
  | .bool b => if b then "true" else "false"
  | .num q => if q.den = 1 then toString q.num else toString q
  | .nan => "NaN"
  | .inf negative => if negative then "-Infinity" else "Infinity"
  | .str s => s
  | .arr _ => ""
  | .obj _ => "[object Object]"

/-- JavaScript `Math.round`: round half toward positive infinity. -/
def jsRound (x : ℚ) : ℤ :=
  Int.floor (x + 1 / 2)

/-- The pipeline's 2-decimal rounding, `Math.round(x * 100) / 100`. -/
def round2 (x : ℚ) : ℚ :=
  (jsRound (x * 100) : ℚ) / 100

/-! The canonical invoice data model (`types.ts`). -/

/-- Enumeration `LineType` from `types.ts`. -/
inductive LineType : Type
  | Lot : LineType
  | Premium : LineType
  | Surcharge : LineType
deriving DecidableEq

/-- String form of a `LineType` (the TS enum's string values). -/
def lineTypeStr : LineType → String
  | .Lot => "Lot"
  | .Premium => "Premium"
  | .Surcharge => "Surcharge"

/-- Canonical line item (`LineItem` in `types.ts`). -/
structure LineItem : Type where
  LineType : LineType
  LotNumber : String
  Description : String
  Quantity : ℚ
  UnitPrice : ℚ
  TaxType : Option String
  TaxRate : Option ℚ
  TaxAmount : Option ℚ
  VatIncluded : Bool
  LineTotal : ℚ

/-- Canonical invoice (`InvoiceData` in `types.ts`). -/
structure InvoiceData : Type where
  InvoiceNumber : String
  InvoiceDate : String
  SupplierName : String
  TotalAmount : ℚ
  Currency : String
  LineItems : List LineItem

/-! Normalization (`services/normalizeInvoiceData.ts`). -/

/-- Coercion `toNumber` from `normalizeInvoiceData.ts`: finite numbers pass,
non-blank numeric strings are parsed, everything else falls back. -/
def toNumber (value : JsValue) (fallback : ℚ) : ℚ :=
  match value with
  | .num q => q
  | .str s =>
    if jsTrimStr s ≠ "" then
      match jsParseNumber s with
      | some q => q
      | none => fallback
    else fallback
  | _ => fallback

/-- Coercion `toNullableNumber` from `normalizeInvoiceData.ts`. -/
def toNullableNumber (value : JsValue) : Option ℚ :=
  match value with
  | .num q => some q
  | .str s =>
    if jsTrimStr s ≠ "" then
      match jsParseNumber s with
      | some q => some q
      | none => none
    else none
  | _ => none

/-- Coercion `toStringValue` from `normalizeInvoiceData.ts`. -/
def toStringValue (value : JsValue) (fallback : String) : String :=
  match value with
  | .str s => s
  | _ => fallback

/-- Coercion `toBoolean` from `normalizeInvoiceData.ts`. -/
def toBoolean (value : JsValue) (fallback : Bool) : Bool :=
  match value with
  | .bool b => b
  | _ => fallback

/-- Coercion of the `LineType` field: `isLineType` guard with `Lot` default. -/
def coerceLineType (value : JsValue) : LineType :=
  match value with
  | .str s =>
    if s = "Lot" then .Lot
    else if s = "Premium" then .Premium
    else if s = "Surcharge" then .Surcharge
    else .Lot
  | _ => .Lot

/-- Coercion of `TaxType`: `item?.TaxType && typeof item.TaxType === "string"
? item.TaxType : null` — a truthy (hence non-empty) string passes, everything
else becomes `null`. -/
def coerceTaxType (value : JsValue) : Option String :=
  match value with
  | .str s => if s = "" then none else some s
  | _ => none

/-- Per-item coercion `normalizeLineItem` from `normalizeInvoiceData.ts`. -/
def normalizeLineItem (item : JsValue) : LineItem where
  LineType := coerceLineType (jsGet item "LineType")
  LotNumber := toStringValue (jsGet item "LotNumber") ""
  Description := toStringValue (jsGet item "Description") ""
  Quantity := toNumber (jsGet item "Quantity") 1
  UnitPrice := toNumber (jsGet item "UnitPrice") 0
  TaxType := coerceTaxType (jsGet item "TaxType")
  TaxRate := toNullableNumber (jsGet item "TaxRate")
  TaxAmount := toNullableNumber (jsGet item "TaxAmount")
  VatIncluded := toBoolean (jsGet item "VatIncluded") false
  LineTotal := toNumber (jsGet item "LineTotal") 0

/-- The normalizer `normalizeInvoiceData` from
`services/normalizeInvoiceData.ts`: header coercion plus, when `LineItems`
is an array, `filter(Boolean)` followed by per-item coercion. -/
def normalizeInvoiceData (payload : JsValue) : InvoiceData where
  InvoiceNumber := toStringValue (jsGet payload "InvoiceNumber") ""
  InvoiceDate := toStringValue (jsGet payload "InvoiceDate") ""
  SupplierName := toStringValue (jsGet payload "SupplierName") ""
  TotalAmount := toNumber (jsGet payload "TotalAmount") 0
  Currency := toStringValue (jsGet payload "Currency") ""
  LineItems :=
    match jsGet payload "LineItems" with
    | .arr xs => (xs.filter jsTruthy).map normalizeLineItem
    | _ => []

/-- Envelope unwrapping from the repository's second copy of
`normalizeInvoiceData` (the one accepting `PartialInvoiceData` or an
`InvoiceEnvelope`): `payload && typeof payload === "object" &&
"InvoiceData" in payload ? payload.InvoiceData : payload`. -/
def unwrapInvoiceEnvelope (payload : JsValue) : JsValue :=
  if jsTruthy payload && jsIsObjectType payload && jsHasKey payload "InvoiceData" then
    jsGet payload "InvoiceData"
  else payload

/-- The envelope-aware copy of `normalizeInvoiceData`: unwrap a one-level
`InvoiceData` envelope, then apply the same field coercions as the bare
normalizer. -/
def normalizeInvoiceDataEnv (payload : JsValue) : InvoiceData :=
  normalizeInvoiceData (unwrapInvoiceEnvelope payload)

/-! Ledger mapping (`services/xeroService.ts`, first copy — the one that
also selects a Xero tax type per line). -/

/-- Output line of the Xero bill. The first copy of `mapToXeroBill` emits a
`TaxType` field in addition to the `XeroLineItem` interface of `types.ts`. -/
structure XeroLineItem : Type where
  Description : String
  Quantity : ℚ
  UnitAmount : ℚ
  AccountCode : String
  LineAmount : ℚ
  TaxType : String

/-- Output bill of `mapToXeroBill`. -/
structure XeroBill : Type where
  BillType : String
  ContactName : String
  DateString : String
  DueDateString : String
  InvoiceNumber : String
  CurrencyCode : String
  Status : String
  LineItems : List XeroLineItem

/-- Truthy-and-positive test `item.TaxAmount && item.TaxAmount > 0` on a
nullable number (for a number, truthiness plus positivity is positivity). -/
def nullablePos : Option ℚ → Bool
  | some q => decide (0 < q)
  | none => false

/-- The pre-VAT `(unitAmount, lineAmount)` pair computed by `mapToXeroBill`
before rounding: tax amount subtracted when positive, VAT extracted when
included, otherwise `UnitPrice` used as-is. -/
def preVatAmounts (item : LineItem) : ℚ × ℚ :=
  if nullablePos item.TaxAmount then
    let preVatLineAmount := item.LineTotal - item.TaxAmount.getD 0
    (preVatLineAmount / item.Quantity, preVatLineAmount)
  else if item.VatIncluded && nullablePos item.TaxRate then
    let preVatLineAmount := item.LineTotal / (1 + item.TaxRate.getD 0 / 100)
    (preVatLineAmount / item.Quantity, preVatLineAmount)
  else
    (item.UnitPrice, item.UnitPrice * item.Quantity)

/-- Xero tax-type selection of `mapToXeroBill` (first copy):
`Lot`/`Premium` are exempt, positive-rate VAT maps 20 → `INPUT2`,
5 → `INPUT`, other positive rates → `INPUT2`, a zero rate or zero tax
amount is exempt, and anything else is `NONE`. -/
def xeroTaxTypeOf (item : LineItem) : String :=
  if item.LineType = .Lot ∨ item.LineType = .Premium then "EXEMPTEXPENSES"
  else if item.TaxType = some "VAT" ∧ nullablePos item.TaxRate then
    if item.TaxRate = some 20 then "INPUT2"
    else if item.TaxRate = some 5 then "INPUT"
    else "INPUT2"
  else if item.TaxRate = some 0 ∨ item.TaxAmount = some 0 then "EXEMPTEXPENSES"
  else "NONE"

/-- Synthesized line description
`` `${LineType} - ${LotNumber ? `Lot #${LotNumber}` : ''} - ${Description}`.trim() ``. -/
def xeroDescription (item : LineItem) : String :=
  jsTrimStr (lineTypeStr item.LineType ++ " - " ++
    (if item.LotNumber ≠ "" then "Lot #" ++ item.LotNumber else "") ++
    " - " ++ item.Description)

/-- Per-line mapping performed by `mapToXeroBill`: round the pre-VAT unit
amount to 2 decimals, then recompute the line amount as
`round2(unitAmount * quantity)` from the already-rounded unit amount. -/
def mapXeroLineItem (accountCode : String) (item : LineItem) : XeroLineItem where
  Description := xeroDescription item
  Quantity := item.Quantity
  UnitAmount := round2 (preVatAmounts item).1
  AccountCode := accountCode
  LineAmount := round2 (round2 (preVatAmounts item).1 * item.Quantity)
  TaxType := xeroTaxTypeOf item

/-- The ledger mapper `mapToXeroBill` from `services/xeroService.ts`. -/
def mapToXeroBill (invoiceData : InvoiceData) (accountCode : String) : XeroBill where
  BillType := "ACCPAY"
  ContactName := invoiceData.SupplierName
  DateString := invoiceData.InvoiceDate
  DueDateString := invoiceData.InvoiceDate
  InvoiceNumber := invoiceData.InvoiceNumber
  CurrencyCode := invoiceData.Currency
  Status := "DRAFT"
  LineItems := invoiceData.LineItems.map (mapXeroLineItem accountCode)

/-- The synchronous prefix of `uploadBillToXero`: reject a blank account
code before any bill is built, otherwise build the bill with `mapToXeroBill`
(the subsequent HTTP submission is external I/O, out of scope). -/
def uploadBillToXero (invoiceData : InvoiceData) (accountCode : String) :
    Except String XeroBill :=
  if jsTrimStr accountCode = "" then .error "Xero Account Code is required."
  else .ok (mapToXeroBill invoiceData accountCode)

/-! Date normalization (`backend/utils/dateUtils.js`). -/

/-- The anchored ISO pattern `^(\d{4})-(\d{2})-(\d{2})$`. -/
def isoMatchL : List Char → Bool
  | [y1, y2, y3, y4, h1, m1, m2, h2, d1, d2] =>
    isDigitChar y1 && isDigitChar y2 && isDigitChar y3 && isDigitChar y4 && h1 = '-' &&
      isDigitChar m1 && isDigitChar m2 && h2 = '-' && isDigitChar d1 && isDigitChar d2
  | _ => false

/-- Separator class `[/\-.]` of the day-month-year pattern
(`/` is 47, `-` is 45, `.` is 46). -/
def isSepChar (c : Char) : Bool :=
  c.toNat = 47 || c.toNat = 45 || c.toNat = 46

/-- The anchored pattern `^(\d{1,2})[/\-.](\d{1,2})[/\-.](\d{2,4})$`,
returning the `(day, month, year)` digit groups on a match. Greedy digit
runs are equivalent to the regex here because a separator is never a
digit. -/
def ddmmyyyyMatchL (l : List Char) : Option (List Char × List Char × List Char) :=
  let p1 := takeDigitsL l
  if p1.1.length = 0 || 2 < p1.1.length then none
  else
    match p1.2 with
    | [] => none
    | s1 :: rest2 =>
      if isSepChar s1 then
        let p2 := takeDigitsL rest2
        if p2.1.length = 0 || 2 < p2.1.length then none
        else
          match p2.2 with
          | [] => none
          | s2 :: rest4 =>
            if isSepChar s2 then
              let p3 := takeDigitsL rest4
              if p3.1.length < 2 || 4 < p3.1.length then none
              else if p3.2 = [] then some (p1.1, p2.1, p3.1) else none
            else none
      else none

/-- JavaScript `padStart(2, '0')` on a digit group. -/
def padStart2 (l : List Char) : List Char :=
  List.replicate (2 - l.length) '0' ++ l

/-- Expansion of the year group: a 2-digit year `YY` becomes the decimal
rendering of `2000 + YY`; longer years pass through. -/
def expandYear (y : List Char) : List Char :=
  if y.length = 2 then (Nat.repr (2000 + digitsToNat y)).data else y

/-- The date normalizer `formatDateForXero` from
`backend/utils/dateUtils.js`. The last-resort `new Date(...)` parse is
modelled by the `fallbackParse` argument, which returns the UTC calendar
date as `YYYY-MM-DD` on success and `none` on an invalid date; every claim
below either holds for all fallbacks or hypothesizes its outcome. -/
def formatDateForXero (fallbackParse : String → Option String) :
    Option String → Option String
  | none => none
  | some s =>
    if s.data = [] then some s
    else
      let t := jsTrimL s.data
      if isoMatchL t then some (String.mk t)
      else
        match ddmmyyyyMatchL t with
        | some (d, m, y) =>
          some (String.mk (expandYear y ++ '-' :: padStart2 m ++ '-' :: padStart2 d))
        | none =>
          match fallbackParse (String.mk t) with
          | some iso => some iso
          | none => some s

/-! Retry wrapper (`services/retry.ts`). The file carries two copies of
`callWithRetry`; both are embedded. An operation is modelled as a function
from the attempt index to that attempt's outcome; delays and jitter do not
affect control flow and are not modelled. -/

/-- The error shape inspected by the retry classifiers: the properties
`status`, `statusCode`, `code`, `message`, `response.status` and
`response.statusCode`, each an untyped JS value (absent = `undefined`). -/
structure JsError : Type where
  status : JsValue := .undefined
  statusCode : JsValue := .undefined
  code : JsValue := .undefined
  message : JsValue := .undefined
  responseStatus : JsValue := .undefined
  responseStatusCode : JsValue := .undefined

/-- JavaScript `a || b`: the left value if truthy, otherwise the right. -/
def jsOr (a b : JsValue) : JsValue :=
  if jsTruthy a then a else b

/-- The status extraction of the first classifier:
`err?.status || err?.code || err?.response?.status ||
err?.response?.statusCode || (typeof err?.status === 'string' ?
parseInt(err.status, 10) : undefined)`. `parseInt` on the strings reaching
it here is modelled by the leading-digit-run parse (`NaN`, i.e. no leading
digits, when none). -/
def statusOfError (err : JsError) : JsValue :=
  jsOr err.status (jsOr err.code (jsOr err.responseStatus (jsOr err.responseStatusCode
    (match err.status with
     | .str s =>
       let d := takeDigitsL (jsTrimL s.data)
       if d.1 = [] then .nan else .num (digitsToNat d.1)
     | _ => .undefined))))

/-- JavaScript `Number(v)` on the values the classifier feeds it, with
`none` standing for `NaN`. -/
def jsNumberOf : JsValue → Option ℚ
  | .null => some 0
  | .undefined => none
  | .bool b => some (if b then 1 else 0)
  | .num q => some q
  | .nan => none
  | .inf _ => none
  | .str s => if jsTrimL s.data = [] then some 0 else jsParseNumber s
  | .arr _ => none
  | .obj _ => none

/-- First rule of the first classifier: the extracted status, when truthy,
coerced with `Number`, is one of `[429, 503, ...extraRetryable]`. -/
def transientByStatus (err : JsError) (extraRetryable : List ℚ) : Bool :=
  let status := statusOfError err
  jsTruthy status &&
    (match jsNumberOf status with
     | some n => (429 :: 503 :: extraRetryable).contains n
     | none => false)

/-- The transient error-code strings shared by both classifiers. -/
def transientStrings : List String :=
  ["ECONNRESET", "ETIMEDOUT", "ECONNABORTED", "EAI_AGAIN"]

/-- Second rule of the first classifier: a truthy `err.code` whose string
form is a known transient code. -/
def transientByCode (err : JsError) : Bool :=
  jsTruthy err.code && transientStrings.contains (jsToString err.code)

/-- Substring test on character lists (JavaScript `includes`). -/
def containsChars (hay needle : List Char) : Bool :=
  decide (needle <:+: hay)

/-- Lower-cased message text `String(err?.message || '').toLowerCase()`. -/
def messageTextOf (err : JsError) : List Char :=
  ((jsToString (jsOr err.message (.str ""))).data).map Char.toLower

/-- Third rule of the first classifier: the lower-cased message mentions
`overloaded`, `unavailable` or `rate limit`. -/
def transientByMessage (err : JsError) : Bool :=
  let msg := messageTextOf err
  containsChars msg "overloaded".data || containsChars msg "unavailable".data ||
    containsChars msg "rate limit".data

/-- The first copy's `isTransientError`: the three rules in order, with
`false` — terminal — for anything that matches none of them. -/
def isTransientError (err : JsError) (extraRetryable : List ℚ) : Bool :=
  transientByStatus err extraRetryable || transientByCode err || transientByMessage err

/-- Loop of the first `callWithRetry`
(`for (attempt = 0; attempt <= maxRetries; attempt++)`), written with the
number of later iterations as structural fuel: `remaining = 0` is the last
iteration, which rethrows regardless of classification, and any earlier
failing iteration retries exactly when the classifier says transient. The
thrown error carries `attempts = attempt + 1`. -/
def retryLoopV1 (fn : ℕ → Except JsError α) (extraRetryable : List ℚ) :
    ℕ → ℕ → Except (JsError × ℕ) α
  | attempt, 0 =>
    match fn attempt with
    | .ok v => .ok v
    | .error e => .error (e, attempt + 1)
  | attempt, remaining + 1 =>
    match fn attempt with
    | .ok v => .ok v
    | .error e =>
      if isTransientError e extraRetryable then
        retryLoopV1 fn extraRetryable (attempt + 1) remaining
      else .error (e, attempt + 1)

/-- The first copy of `callWithRetry`: attempts are indexed `0..maxRetries`
(so `maxRetries + 1` calls in the worst case); the default option is
`maxRetries = 5`. -/
def callWithRetry (fn : ℕ → Except JsError α) (extraRetryable : List ℚ)
    (maxRetries : ℕ) : Except (JsError × ℕ) α :=
  retryLoopV1 fn extraRetryable 0 maxRetries

/-- Status extraction of the second classifier:
`err?.response?.status ?? err?.statusCode ?? err?.status` (nullish
coalescing). -/
def statusOfError2 (err : JsError) : JsValue :=
  match err.responseStatus with
  | .null =>
    (match err.statusCode with
     | .null => err.status
     | .undefined => err.status
     | v => v)
  | .undefined =>
    (match err.statusCode with
     | .null => err.status
     | .undefined => err.status
     | v => v)
  | v => v

/-- `byCode` of the second classifier. -/
def transientByCode2 (err : JsError) : Bool :=
  jsTruthy err.code && transientStrings.contains (jsToString err.code)

/-- `byStatus` of the second classifier: the status must literally be a
number contained in `retryableStatusCodes` (default
`[502, 503, 504, 429]`, replaced — not extended — by the option). -/
def transientByStatus2 (err : JsError) (retryableStatusCodes : List ℚ) : Bool :=
  match statusOfError2 err with
  | .num q => retryableStatusCodes.contains q
  | .nan => false
  | .inf _ => false
  | _ => false

/-- `byMessage` of the second classifier: the case-insensitive regex
`/timeout|timed out|ECONNRESET|ETIMEDOUT|ECONNABORTED|EAI_AGAIN/i` on
`String(err?.message ?? '')`. -/
def transientByMessage2 (err : JsError) : Bool :=
  let msg :=
    ((jsToString (match err.message with | .null => .str "" | .undefined => .str "" | v => v)).data).map
      Char.toLower
  containsChars msg "timeout".data || containsChars msg "timed out".data ||
    containsChars msg "econnreset".data || containsChars msg "etimedout".data ||
    containsChars msg "econnaborted".data || containsChars msg "eai_again".data

/-- The second copy's `isTransientError`: `Boolean(byCode || byStatus ||
byMessage)`, again `false` for an unmatched error. -/
def isTransientError2 (err : JsError) (retryableStatusCodes : List ℚ) : Bool :=
  transientByCode2 err || transientByStatus2 err retryableStatusCodes ||
    transientByMessage2 err

/-- Failure outcome of the second `callWithRetry`: a rethrown operation
error with its attached attempt count, or the unreachable-by-design
`Exceeded retry attempts` error (reached only when `maxRetries = 0`). -/
inductive RetryFailure : Type where
  | thrown (e : JsError) (attempts : ℕ) : RetryFailure
  | exhausted : RetryFailure

/-- Loop of the second `callWithRetry`
(`for (attempt = 1; attempt <= maxRetries; attempt++)`), with the remaining
iteration count as structural fuel (`remaining + 1` iterations left, so the
current one is the last exactly when `remaining = 0`, i.e.
`attempt === maxRetries`). The thrown error carries `attempts = attempt`. -/
def retryLoopV2 (fn : ℕ → Except JsError α) (retryableStatusCodes : List ℚ) :
    ℕ → ℕ → Except RetryFailure α
  | _, 0 => .error .exhausted
  | attempt, remaining + 1 =>
    match fn attempt with
    | .ok v => .ok v
    | .error e =>
      if remaining = 0 || !isTransientError2 e retryableStatusCodes then
        .error (.thrown e attempt)
      else retryLoopV2 fn retryableStatusCodes (attempt + 1) remaining

/-- The second copy of `callWithRetry`: attempts are indexed
`1..maxRetries` (default 5), so exactly `maxRetries` calls in the worst
case; with `maxRetries = 0` the loop body never runs and the generic
`Exceeded retry attempts` error is thrown. -/
def callWithRetry2 (fn : ℕ → Except JsError α) (retryableStatusCodes : List ℚ)
    (maxRetries : ℕ) : Except RetryFailure α :=
  retryLoopV2 fn retryableStatusCodes 1 maxRetries

/-! Re-embedding of canonical values as JS payloads, for feeding an
`Invoice` back to the normalizer (claim: idempotence of normalization). -/

/-- The JS object a normalized line item presents when fed back to the
normalizer (nullable fields serialize to `null`). -/
def LineItem.toJs (it : LineItem) : JsValue :=
  .obj [("LineType", .str (lineTypeStr it.LineType)),
        ("LotNumber", .str it.LotNumber),
        ("Description", .str it.Description),
        ("Quantity", .num it.Quantity),
        ("UnitPrice", .num it.UnitPrice),
        ("TaxType", match it.TaxType with | some s => .str s | none => .null),
        ("TaxRate", match it.TaxRate with | some q => .num q | none => .null),
        ("TaxAmount", match it.TaxAmount with | some q => .num q | none => .null),
        ("VatIncluded", .bool it.VatIncluded),
        ("LineTotal", .num it.LineTotal)]

/-- The JS object a normalized invoice presents when fed back to the
normalizer. -/
def InvoiceData.toJs (inv : InvoiceData) : JsValue :=
  .obj [("InvoiceNumber", .str inv.InvoiceNumber),
        ("InvoiceDate", .str inv.InvoiceDate),
        ("SupplierName", .str inv.SupplierName),
        ("TotalAmount", .num inv.TotalAmount),
        ("Currency", .str inv.Currency),
        ("LineItems", .arr (inv.LineItems.map LineItem.toJs))]


theorem coerceTaxType_ne_some_empty (v : JsValue) : coerceTaxType v ≠ some "" := by
  cases v
  case str s =>
    by_cases hs : s = "" <;> simp [coerceTaxType, hs]
  all_goals exact nofun

theorem normalizeLineItem_taxType_ne_some_empty (v : JsValue) :
    (normalizeLineItem v).TaxType ≠ some "" :=
  coerceTaxType_ne_some_empty _

theorem lineItem_toJs_get_LineType (it : LineItem) :
    jsGet (LineItem.toJs it) "LineType" = .str (lineTypeStr it.LineType) := rfl

theorem lineItem_toJs_get_LotNumber (it : LineItem) :
    jsGet (LineItem.toJs it) "LotNumber" = .str it.LotNumber := rfl

theorem lineItem_toJs_get_Description (it : LineItem) :
    jsGet (LineItem.toJs it) "Description" = .str it.Description := rfl

theorem lineItem_toJs_get_Quantity (it : LineItem) :
    jsGet (LineItem.toJs it) "Quantity" = .num it.Quantity := rfl

theorem lineItem_toJs_get_UnitPrice (it : LineItem) :
    jsGet (LineItem.toJs it) "UnitPrice" = .num it.UnitPrice := rfl

theorem lineItem_toJs_get_TaxType (it : LineItem) :
    jsGet (LineItem.toJs it) "TaxType" =
      (match it.TaxType with | some s => .str s | none => .null) := rfl

theorem lineItem_toJs_get_TaxRate (it : LineItem) :
    jsGet (LineItem.toJs it) "TaxRate" =
      (match it.TaxRate with | some q => .num q | none => .null) := rfl

theorem lineItem_toJs_get_TaxAmount (it : LineItem) :
    jsGet (LineItem.toJs it) "TaxAmount" =
      (match it.TaxAmount with | some q => .num q | none => .null) := rfl

theorem lineItem_toJs_get_VatIncluded (it : LineItem) :
    jsGet (LineItem.toJs it) "VatIncluded" = .bool it.VatIncluded := rfl

theorem lineItem_toJs_get_LineTotal (it : LineItem) :
    jsGet (LineItem.toJs it) "LineTotal" = .num it.LineTotal := rfl

theorem coerceLineType_lineTypeStr (lt : LineType) :
    coerceLineType (.str (lineTypeStr lt)) = lt := by
  cases lt <;> rfl

theorem normalizeLineItem_toJs (it : LineItem) (h : it.TaxType ≠ some "") :
    normalizeLineItem (LineItem.toJs it) = it := by
  have htt : coerceTaxType (jsGet (LineItem.toJs it) "TaxType") = it.TaxType := by
    rw [lineItem_toJs_get_TaxType]
    cases h' : it.TaxType with
    | none => rfl
    | some s =>
      have hs : s ≠ "" := fun hs => h (by rw [h', hs])
      simp [coerceTaxType, hs]
  have htr : toNullableNumber (jsGet (LineItem.toJs it) "TaxRate") = it.TaxRate := by
    rw [lineItem_toJs_get_TaxRate]
    cases it.TaxRate <;> rfl
  have hta : toNullableNumber (jsGet (LineItem.toJs it) "TaxAmount") = it.TaxAmount := by
    rw [lineItem_toJs_get_TaxAmount]
    cases it.TaxAmount <;> rfl
  show LineItem.mk _ _ _ _ _ _ _ _ _ _ = it
  rw [lineItem_toJs_get_LineType, lineItem_toJs_get_LotNumber,
    lineItem_toJs_get_Description, lineItem_toJs_get_Quantity,
    lineItem_toJs_get_UnitPrice, lineItem_toJs_get_VatIncluded,
    lineItem_toJs_get_LineTotal, coerceLineType_lineTypeStr, htt, htr, hta]
  rfl

theorem jsTruthy_lineItem_toJs (it : LineItem) : jsTruthy (LineItem.toJs it) = true := rfl

theorem filter_map_normalizeLineItem_toJs (l : List LineItem)
    (h : ∀ it ∈ l, it.TaxType ≠ some "") :
    ((l.map LineItem.toJs).filter jsTruthy).map normalizeLineItem = l := by
  induction l with
  | nil => rfl
  | cons a t ih =>
    simp only [List.map_cons, List.filter_cons, jsTruthy_lineItem_toJs, if_pos trivial,
      List.map_cons]
    rw [normalizeLineItem_toJs a (h a (by simp)), ih (fun it hit => h it (by simp [hit]))]

theorem invoice_toJs_get_InvoiceNumber (inv : InvoiceData) :
    jsGet (InvoiceData.toJs inv) "InvoiceNumber" = .str inv.InvoiceNumber := rfl

theorem invoice_toJs_get_InvoiceDate (inv : InvoiceData) :
    jsGet (InvoiceData.toJs inv) "InvoiceDate" = .str inv.InvoiceDate := rfl

theorem invoice_toJs_get_SupplierName (inv : InvoiceData) :
    jsGet (InvoiceData.toJs inv) "SupplierName" = .str inv.SupplierName := rfl

theorem invoice_toJs_get_TotalAmount (inv : InvoiceData) :
    jsGet (InvoiceData.toJs inv) "TotalAmount" = .num inv.TotalAmount := rfl

theorem invoice_toJs_get_Currency (inv : InvoiceData) :
    jsGet (InvoiceData.toJs inv) "Currency" = .str inv.Currency := rfl

theorem invoice_toJs_get_LineItems (inv : InvoiceData) :
    jsGet (InvoiceData.toJs inv) "LineItems" = .arr (inv.LineItems.map LineItem.toJs) := rfl

theorem normalizeInvoiceData_toJs (inv : InvoiceData)
    (h : ∀ it ∈ inv.LineItems, it.TaxType ≠ some "") :
    normalizeInvoiceData (InvoiceData.toJs inv) = inv := by
  show InvoiceData.mk _ _ _ _ _ _ = inv
  rw [invoice_toJs_get_InvoiceNumber, invoice_toJs_get_InvoiceDate,
    invoice_toJs_get_SupplierName, invoice_toJs_get_TotalAmount,
    invoice_toJs_get_Currency, invoice_toJs_get_LineItems]
  show InvoiceData.mk inv.InvoiceNumber inv.InvoiceDate inv.SupplierName inv.TotalAmount
    inv.Currency (((inv.LineItems.map LineItem.toJs).filter jsTruthy).map normalizeLineItem) = inv
  rw [filter_map_normalizeLineItem_toJs inv.LineItems h]

/-- Claim C9: normalization is idempotent — feeding a normalized invoice
(re-embedded as a JS payload) back through `normalizeInvoiceData` returns
it unchanged, so `normalize (normalize x) = normalize x` for every
payload `x`. -/
theorem normalizeInvoiceData_idempotent (x : JsValue) :
    normalizeInvoiceData (InvoiceData.toJs (normalizeInvoiceData x)) =
      normalizeInvoiceData x := by
  refine normalizeInvoiceData_toJs _ ?_
  intro it hit
  have hit' : it ∈
      (match jsGet x "LineItems" with
       | JsValue.arr xs => (xs.filter jsTruthy).map normalizeLineItem
       | _ => []) := hit
  clear hit
  revert hit'
  cases jsGet x "LineItems" <;> intro hit'
  case arr xs =>
    obtain ⟨v, hv, rfl⟩ := List.mem_map.mp hit'
    exact normalizeLineItem_taxType_ne_some_empty v
  all_goals exact absurd hit' (List.not_mem_nil it)

/-- Claim C10: when the payload's `LineItems` is an array, every falsy
entry — `null`, `undefined`, `0`, `""`, `false` and `NaN` alike — is
dropped before per-item coercion, the surviving entries are coerced in
order, and the output length is the number of truthy entries. -/
theorem normalizeInvoiceData_drops_falsy (p : JsValue) (xs : List JsValue)
    (h : jsGet p "LineItems" = .arr xs) :
    (normalizeInvoiceData p).LineItems = (xs.filter jsTruthy).map normalizeLineItem ∧
    (normalizeInvoiceData p).LineItems.length = xs.countP jsTruthy ∧
    jsTruthy .null = false ∧ jsTruthy .undefined = false ∧ jsTruthy (.num 0) = false ∧
    jsTruthy (.str "") = false ∧ jsTruthy (.bool false) = false ∧ jsTruthy .nan = false := by
  have hli : (normalizeInvoiceData p).LineItems =
      (xs.filter jsTruthy).map normalizeLineItem := by
    have h0 : (normalizeInvoiceData p).LineItems =
        (match jsGet p "LineItems" with
         | JsValue.arr ys => (ys.filter jsTruthy).map normalizeLineItem
         | _ => []) := rfl
    rw [h0, h]
  refine ⟨hli, ?_, rfl, rfl, by decide, by decide, rfl, rfl⟩
  rw [hli, List.length_map, ← List.countP_eq_length_filter]

/-- Witness for C10: a concrete `LineItems` array with one truthy entry
among six falsy ones yields exactly one line item. -/
theorem normalizeInvoiceData_drops_falsy_witness :
    (normalizeInvoiceData (JsValue.obj [("LineItems",
        JsValue.arr [JsValue.num 0, JsValue.obj [], JsValue.str "",
          JsValue.bool false, JsValue.nan, JsValue.null, JsValue.undefined])])).LineItems.length
      = 1 := by
  have h := normalizeInvoiceData_drops_falsy
    (JsValue.obj [("LineItems",
      JsValue.arr [JsValue.num 0, JsValue.obj [], JsValue.str "",
        JsValue.bool false, JsValue.nan, JsValue.null, JsValue.undefined])])
    [JsValue.num 0, JsValue.obj [], JsValue.str "",
      JsValue.bool false, JsValue.nan, JsValue.null, JsValue.undefined] rfl
  rw [h.2.1]
  decide

/-- Claim C7 (amended): the envelope-aware normalizer unwraps exactly one
`InvoiceData` envelope level, so `normalize {InvoiceData: p} = normalize p`
holds for every payload `p` that does not itself carry an `InvoiceData`
property. -/
theorem normalizeInvoiceDataEnv_unwraps (p : JsValue)
    (h : jsHasKey p "InvoiceData" = false) :
    normalizeInvoiceDataEnv (.obj [("InvoiceData", p)]) = normalizeInvoiceDataEnv p := by
  have h1 : unwrapInvoiceEnvelope (.obj [("InvoiceData", p)]) = p := rfl
  have h2 : unwrapInvoiceEnvelope p = p := by
    simp [unwrapInvoiceEnvelope, h]
  show normalizeInvoiceData _ = normalizeInvoiceData _
  rw [h1, h2]

/-- Witness for C7: a plain invoice-shaped payload is normalized the same
whether or not it is wrapped in an `InvoiceData` envelope. -/
theorem normalizeInvoiceDataEnv_unwraps_witness :
    normalizeInvoiceDataEnv (.obj [("InvoiceData",
        .obj [("InvoiceNumber", .str "A")])]) =
      normalizeInvoiceDataEnv (.obj [("InvoiceNumber", .str "A")]) :=
  normalizeInvoiceDataEnv_unwraps (.obj [("InvoiceNumber", .str "A")]) rfl

/-- Counterexample to C7 as stated: for a payload that itself carries an
`InvoiceData` key, wrapping changes the result — the claim's equation
fails because unwrapping is single-level and the bare payload is unwrapped
too. -/
theorem normalizeInvoiceDataEnv_nested_counterexample :
    normalizeInvoiceDataEnv (.obj [("InvoiceData",
        .obj [("InvoiceData", .obj [("InvoiceNumber", .str "X")])])]) ≠
      normalizeInvoiceDataEnv (.obj [("InvoiceData",
        .obj [("InvoiceNumber", .str "X")])]) := by
  intro h
  exact absurd (congrArg InvoiceData.InvoiceNumber h) (by decide)

/-! Claims about the ledger mapper. -/

/-- The end-to-end scenario payload of the spec: a `Lot` line
(`UnitPrice` 1000, `LineTotal` 1000) and a `Surcharge` line
(`UnitPrice` 200, VAT 20%, `TaxAmount` 40, `LineTotal` 240). -/
def scenarioPayload : JsValue :=
  .obj [("LineItems", .arr [
    .obj [("LineType", .str "Lot"), ("UnitPrice", .num 1000), ("LineTotal", .num 1000)],
    .obj [("LineType", .str "Surcharge"), ("UnitPrice", .num 200), ("TaxType", .str "VAT"),
          ("TaxRate", .num 20), ("TaxAmount", .num 40), ("LineTotal", .num 240)]])]

/-- The scenario payload after normalization. -/
def scenarioInvoice : InvoiceData :=
  normalizeInvoiceData scenarioPayload

/-- Claim C1: every bill line produced by `mapToXeroBill` satisfies
`LineAmount = round2(UnitAmount * Quantity)` exactly (stated under the
claim's `Quantity > 0` guard; the identity holds because `LineAmount` is
recomputed from the already-rounded `UnitAmount`). -/
theorem mapToXeroBill_lineAmount_invariant (inv : InvoiceData) (accountCode : String)
    (l : XeroLineItem) (hl : l ∈ (mapToXeroBill inv accountCode).LineItems)
    (hq : 0 < l.Quantity) :
    l.LineAmount = round2 (l.UnitAmount * l.Quantity) := by
  have hl' : l ∈ inv.LineItems.map (mapXeroLineItem accountCode) := hl
  obtain ⟨item, hitem, rfl⟩ := List.mem_map.mp hl'
  rfl

/-- The normalized form of the scenario's `Lot` line. -/
def scenarioLotItem : LineItem :=
  ⟨.Lot, "", "", 1, 1000, none, none, none, false, 1000⟩

/-- The normalized form of the scenario's `Surcharge` line. -/
def scenarioSurchargeItem : LineItem :=
  ⟨.Surcharge, "", "", 1, 200, some "VAT", some 20, some 40, false, 240⟩

/-- Witness for C1: the scenario's `Lot` bill line (quantity 1) satisfies
the invariant. -/
theorem mapToXeroBill_lineAmount_invariant_witness :
    (mapXeroLineItem "429" scenarioLotItem).LineAmount =
      round2 ((mapXeroLineItem "429" scenarioLotItem).UnitAmount *
        (mapXeroLineItem "429" scenarioLotItem).Quantity) :=
  mapToXeroBill_lineAmount_invariant scenarioInvoice "429" (mapXeroLineItem "429" scenarioLotItem)
    (List.mem_map_of_mem (mapXeroLineItem "429")
      (show scenarioLotItem ∈ scenarioInvoice.LineItems from List.mem_cons_self _ _))
    (show (0 : ℚ) < 1 by norm_num)

/-- The three-branch pre-tax line amount rule: positive `TaxAmount` is
subtracted from `LineTotal`; otherwise an included VAT at a positive rate
is divided out; otherwise `UnitPrice * Quantity` is taken as already
pre-tax. -/
def preTaxLineAmount (item : LineItem) : ℚ :=
  if nullablePos item.TaxAmount then item.LineTotal - item.TaxAmount.getD 0
  else if item.VatIncluded && nullablePos item.TaxRate then
    item.LineTotal / (1 + item.TaxRate.getD 0 / 100)
  else item.UnitPrice * item.Quantity

/-- Claim C2 (amended: stated for `Quantity ≠ 0`; at quantity zero the
else-branch submits `round2 UnitPrice` while the claimed formula divides
by zero): the mapper's pre-VAT line amount is exactly the three-branch
`preTaxLineAmount`, and the submitted unit amount is
`round2 (preTaxLineAmount / Quantity)`. -/
theorem mapXeroLineItem_preTax_rule (accountCode : String) (item : LineItem)
    (hq : item.Quantity ≠ 0) :
    (preVatAmounts item).2 = preTaxLineAmount item ∧
    (mapXeroLineItem accountCode item).UnitAmount =
      round2 (preTaxLineAmount item / item.Quantity) := by
  by_cases h1 : nullablePos item.TaxAmount
  · constructor
    · simp [preVatAmounts, preTaxLineAmount, h1]
    · show round2 (preVatAmounts item).1 = _
      simp [preVatAmounts, preTaxLineAmount, h1]
  · by_cases h2 : item.VatIncluded && nullablePos item.TaxRate
    · constructor
      · simp [preVatAmounts, preTaxLineAmount, h1, h2]
      · show round2 (preVatAmounts item).1 = _
        simp [preVatAmounts, preTaxLineAmount, h1, h2]
    · constructor
      · simp [preVatAmounts, preTaxLineAmount, h1, h2]
      · show round2 (preVatAmounts item).1 = _
        simp only [preVatAmounts, preTaxLineAmount, h1, h2, Bool.false_eq_true,
          not_false_eq_true, if_neg, if_false]
        rw [mul_div_assoc, div_self hq, mul_one]

/-- Witness for C2: the scenario's surcharge item (quantity 1) has
pre-tax line amount `240 - 40 = 200` and unit amount `round2 (200 / 1)`. -/
theorem mapXeroLineItem_preTax_rule_witness :
    (preVatAmounts scenarioSurchargeItem).2 = preTaxLineAmount scenarioSurchargeItem ∧
    (mapXeroLineItem "429" scenarioSurchargeItem).UnitAmount =
      round2 (preTaxLineAmount scenarioSurchargeItem / scenarioSurchargeItem.Quantity) :=
  mapXeroLineItem_preTax_rule "429" scenarioSurchargeItem
    (show (1 : ℚ) ≠ 0 by norm_num)

/-- A line item with quantity zero (a value the normalizer accepts, since
`0` is a finite number). -/
def zeroQuantityItem : LineItem :=
  ⟨.Lot, "", "", 0, 5, none, none, none, false, 0⟩

/-- Counterexample to C2 as stated: at `Quantity = 0` the submitted unit
amount is `round2 UnitPrice` (here 5), not `round2` of the pre-tax amount
divided by the quantity. -/
theorem mapXeroLineItem_preTax_rule_counterexample :
    (mapXeroLineItem "429" zeroQuantityItem).UnitAmount ≠
      round2 (preTaxLineAmount zeroQuantityItem / zeroQuantityItem.Quantity) := by
  show round2 (preVatAmounts zeroQuantityItem).1 ≠ _
  norm_num [preVatAmounts, preTaxLineAmount, nullablePos, zeroQuantityItem, round2, jsRound]

/-- Claim C3: the tax-type selection rule of `mapToXeroBill` — `Lot` and
`Premium` map to the exempt ("no tax") code `EXEMPTEXPENSES`; otherwise
VAT at rate 20 maps to `INPUT2`, rate 5 to `INPUT`, any other positive
rate to `INPUT2`; otherwise a zero rate or zero tax amount maps to
`EXEMPTEXPENSES` — and the spec's end-to-end scenario maps, with account
code `429`, to bill lines `(1000, 1000, EXEMPTEXPENSES)` and
`(200, 200, INPUT2)`. -/
theorem xeroTaxType_selection :
    (∀ item : LineItem, (item.LineType = .Lot ∨ item.LineType = .Premium) →
      xeroTaxTypeOf item = "EXEMPTEXPENSES") ∧
    (∀ item : LineItem, ¬(item.LineType = .Lot ∨ item.LineType = .Premium) →
      item.TaxType = some "VAT" → item.TaxRate = some 20 →
      xeroTaxTypeOf item = "INPUT2") ∧
    (∀ item : LineItem, ¬(item.LineType = .Lot ∨ item.LineType = .Premium) →
      item.TaxType = some "VAT" → item.TaxRate = some 5 →
      xeroTaxTypeOf item = "INPUT") ∧
    (∀ (item : LineItem) (r : ℚ), ¬(item.LineType = .Lot ∨ item.LineType = .Premium) →
      item.TaxType = some "VAT" → item.TaxRate = some r → 0 < r → r ≠ 20 → r ≠ 5 →
      xeroTaxTypeOf item = "INPUT2") ∧
    (∀ item : LineItem, ¬(item.LineType = .Lot ∨ item.LineType = .Premium) →
      ¬(item.TaxType = some "VAT" ∧ nullablePos item.TaxRate = true) →
      (item.TaxRate = some 0 ∨ item.TaxAmount = some 0) →
      xeroTaxTypeOf item = "EXEMPTEXPENSES") ∧
    ((mapToXeroBill scenarioInvoice "429").LineItems.map
        (fun l => (l.UnitAmount, l.LineAmount, l.TaxType)) =
      [(1000, 1000, "EXEMPTEXPENSES"), (200, 200, "INPUT2")]) := by
  have hpos : ∀ (q : ℚ), 0 < q → nullablePos (some q) = true := by
    intro q hq
    simp only [nullablePos, decide_eq_true_eq]
    exact hq
  refine ⟨?_, ?_, ?_, ?_, ?_, ?_⟩
  · intro item h
    unfold xeroTaxTypeOf
    rw [if_pos h]
  · intro item hn h1 h2
    unfold xeroTaxTypeOf
    rw [if_neg hn, if_pos ⟨h1, by rw [h2]; exact hpos 20 (by norm_num)⟩, if_pos h2]
  · intro item hn h1 h2
    unfold xeroTaxTypeOf
    rw [if_neg hn, if_pos ⟨h1, by rw [h2]; exact hpos 5 (by norm_num)⟩, if_neg, if_pos h2]
    rw [h2]
    exact fun he => absurd (Option.some.inj he) (by norm_num)
  · intro item r hn h1 h2 hr h20 h5
    unfold xeroTaxTypeOf
    rw [if_neg hn, if_pos ⟨h1, by rw [h2]; exact hpos r hr⟩, if_neg, if_neg]
    · rw [h2]
      exact fun he => h5 (Option.some.inj he)
    · rw [h2]
      exact fun he => h20 (Option.some.inj he)
  · intro item hn h2 h3
    unfold xeroTaxTypeOf
    rw [if_neg hn, if_neg h2, if_pos h3]
  · have hinv : scenarioInvoice =
        ⟨"", "", "", 0, "", [scenarioLotItem, scenarioSurchargeItem]⟩ := rfl
    rw [hinv]
    have h40 : nullablePos (some (40 : ℚ)) = true := hpos 40 (by norm_num)
    have h20 : nullablePos (some (20 : ℚ)) = true := hpos 20 (by norm_num)
    simp only [mapToXeroBill, mapXeroLineItem, List.map_cons, List.map_nil,
      scenarioLotItem, scenarioSurchargeItem, preVatAmounts, xeroTaxTypeOf, nullablePos,
      h40, h20]
    norm_num [round2, jsRound]
    rintro (h | h) <;> exact absurd h (by decide)

/-- Witness for C3: the two scenario items get the exempt and the
20%-purchase-VAT codes respectively. -/
theorem xeroTaxType_selection_witness :
    xeroTaxTypeOf scenarioLotItem = "EXEMPTEXPENSES" ∧
    xeroTaxTypeOf scenarioSurchargeItem = "INPUT2" :=
  ⟨xeroTaxType_selection.1 scenarioLotItem (Or.inl rfl),
   xeroTaxType_selection.2.1 scenarioSurchargeItem (by decide) rfl rfl⟩

/-! Claim C6: account-code validation. -/

theorem jsTrimL_eq_nil_iff (l : List Char) :
    jsTrimL l = [] ↔ ∀ c ∈ l, isJsWs c = true := by
  unfold jsTrimL
  rw [List.reverse_eq_nil_iff, List.dropWhile_eq_nil_iff]
  constructor
  · intro h c hc
    rw [← List.takeWhile_append_dropWhile isJsWs l] at hc
    rcases List.mem_append.mp hc with h1 | h2
    · exact List.mem_takeWhile_imp h1
    · exact h c (List.mem_reverse.mpr h2)
  · intro h c hc
    exact h c (List.dropWhile_subset _ (List.mem_reverse.mp hc))

/-- Claim C6: for every invoice, a blank (empty or all-whitespace) account
code makes `uploadBillToXero` fail with the validation error before any
bill is built, while any non-blank account code passes validation and the
bill is built with `mapToXeroBill`. -/
theorem uploadBillToXero_accountCode_validation (inv : InvoiceData) (accountCode : String) :
    ((∀ c ∈ accountCode.data, isJsWs c = true) →
      uploadBillToXero inv accountCode = .error "Xero Account Code is required.") ∧
    ((∃ c ∈ accountCode.data, ¬ isJsWs c = true) →
      uploadBillToXero inv accountCode = .ok (mapToXeroBill inv accountCode)) := by
  constructor
  · intro h
    have ht : jsTrimStr accountCode = "" := by
      show String.mk (jsTrimL accountCode.data) = ""
      rw [(jsTrimL_eq_nil_iff _).mpr h]
    simp [uploadBillToXero, ht]
  · rintro ⟨c, hc, hw⟩
    have ht : jsTrimStr accountCode ≠ "" := by
      intro he
      have hnil : jsTrimL accountCode.data = [] := congrArg String.data he
      exact hw ((jsTrimL_eq_nil_iff _).mp hnil c hc)
    simp [uploadBillToXero, ht]

/-- Witness for C6: the all-whitespace code `"   "` is rejected with the
validation error, and `"429"` passes validation. -/
theorem uploadBillToXero_accountCode_validation_witness :
    uploadBillToXero scenarioInvoice "   " = .error "Xero Account Code is required." ∧
    uploadBillToXero scenarioInvoice "429" =
      .ok (mapToXeroBill scenarioInvoice "429") :=
  ⟨(uploadBillToXero_accountCode_validation scenarioInvoice "   ").1 (by decide),
   (uploadBillToXero_accountCode_validation scenarioInvoice "429").2 ⟨'4', by decide, by decide⟩⟩

/-! Claims C4 and C5: retry behavior. -/

theorem retryLoopV1_always_error {α : Type} (fn : ℕ → Except JsError α)
    (extra : List ℚ) (e : JsError) (h : ∀ n, fn n = .error e)
    (ht : isTransientError e extra = true) :
    ∀ (remaining attempt : ℕ),
      retryLoopV1 fn extra attempt remaining = .error (e, attempt + remaining + 1) := by
  intro remaining
  induction remaining with
  | zero =>
    intro attempt
    simp [retryLoopV1, h attempt]
  | succ r ih =>
    intro attempt
    simp only [retryLoopV1, h attempt, ht, if_pos]
    have harith : attempt + 1 + r + 1 = attempt + (r + 1) + 1 := by omega
    rw [ih (attempt + 1), harith]

theorem retryLoopV2_succ_eq {α : Type} (fn : ℕ → Except JsError α) (codes : List ℚ)
    (attempt r : ℕ) :
    retryLoopV2 fn codes attempt (r + 1) =
      (match fn attempt with
       | .ok v => .ok v
       | .error e =>
         if r = 0 || !isTransientError2 e codes then .error (.thrown e attempt)
         else retryLoopV2 fn codes (attempt + 1) r) := rfl

theorem retryLoopV2_always_error {α : Type} (fn : ℕ → Except JsError α)
    (codes : List ℚ) (e : JsError) (h : ∀ n, fn n = .error e)
    (ht : isTransientError2 e codes = true) :
    ∀ (r attempt : ℕ),
      retryLoopV2 fn codes attempt (r + 1) = .error (.thrown e (attempt + r)) := by
  intro r
  induction r with
  | zero =>
    intro attempt
    rw [retryLoopV2_succ_eq, h attempt]
    simp
  | succ r ih =>
    intro attempt
    rw [retryLoopV2_succ_eq, h attempt]
    have hcond : (decide (r + 1 = 0) || !isTransientError2 e codes) = false := by
      rw [ht]
      simp
    simp only [hcond, Bool.false_eq_true, if_false]
    have harith : attempt + 1 + r = attempt + (r + 1) := by omega
    rw [ih (attempt + 1), harith]

/-- Claim C4 (amended): for an operation that fails on every call with a
transient error, the first `callWithRetry` performs `maxRetries + 1`
attempts (the first try plus `maxRetries` retries — 6 attempts at the
default `maxRetries = 5`) and throws the last error with
`attempts = maxRetries + 1`; the second `callWithRetry` performs exactly
`maxRetries` attempts and throws with `attempts = maxRetries`, which is
the behavior the claim describes, reading its `maxAttempts` as
`maxRetries ≥ 1`. -/
theorem callWithRetry_exhausts_attempts {α : Type} (fn : ℕ → Except JsError α)
    (extra codes : List ℚ) (maxRetries : ℕ) (e : JsError)
    (h : ∀ n, fn n = .error e)
    (ht1 : isTransientError e extra = true)
    (ht2 : isTransientError2 e codes = true) :
    callWithRetry fn extra maxRetries = .error (e, maxRetries + 1) ∧
    (1 ≤ maxRetries → callWithRetry2 fn codes maxRetries = .error (.thrown e maxRetries)) := by
  constructor
  · show retryLoopV1 fn extra 0 maxRetries = _
    rw [retryLoopV1_always_error fn extra e h ht1 maxRetries 0]
    rw [Nat.zero_add]
  · intro hge
    obtain ⟨m, rfl⟩ := Nat.exists_eq_add_of_le hge
    show retryLoopV2 fn codes 1 (1 + m) = _
    have h1m : 1 + m = m + 1 := by omega
    rw [h1m, retryLoopV2_always_error fn codes e h ht2 m 1]
    have h2 : 1 + m = m + 1 := by omega
    rw [h2]

/-- An error carrying HTTP status 429, which both classifiers treat as
transient (`429` is a transient status for the first classifier and a
default retryable status code for the second). -/
def err429 : JsError :=
  { status := .num 429 }

/-- Witness for C4: with the always-429-failing operation and the default
`maxRetries = 5`, the first copy throws with 6 attempts and the second
copy throws with 5 attempts. -/
theorem callWithRetry_exhausts_attempts_witness :
    callWithRetry (fun _ => (.error err429 : Except JsError ℕ)) [] 5 = .error (err429, 6) ∧
    callWithRetry2 (fun _ => (.error err429 : Except JsError ℕ)) [502, 503, 504, 429] 5 =
      .error (.thrown err429 5) := by
  have h := callWithRetry_exhausts_attempts (fun _ => (.error err429 : Except JsError ℕ))
    [] [502, 503, 504, 429] 5 err429 (fun _ => rfl) rfl rfl
  exact ⟨h.1, h.2 (by norm_num)⟩

/-- Counterexample to C4 as stated: the first `callWithRetry` with its
default `maxRetries = 5` does not stop after 5 attempts — an operation
that fails transiently on its first five calls is invoked a sixth time
(and its sixth result is returned), and an always-failing operation is
thrown with `attempts = 6`, not 5. -/
theorem callWithRetry_six_attempts_counterexample :
    callWithRetry (fun n => if n = 5 then .ok 42 else .error err429) [] 5 = .ok 42 ∧
    callWithRetry (fun _ => (.error err429 : Except JsError ℕ)) [] 5 = .error (err429, 6) ∧
    (6 : ℕ) ≠ 5 := by
  refine ⟨rfl, ?_, by norm_num⟩
  show retryLoopV1 _ [] 0 5 = _
  rw [retryLoopV1_always_error _ [] err429 (fun _ => rfl) rfl 5 0]

/-- Claim C5 (amended): an error matching none of the classifier's rules
(no transient status, no recognized code string, no transient message
text) is classified as NOT transient by both `isTransientError` copies —
the default branch returns `false` — and `callWithRetry` therefore
rethrows it after the first attempt, with an attached attempt count of 1. -/
theorem unmatched_error_is_terminal (err : JsError) (extra codes : List ℚ)
    (maxRetries : ℕ) (fn : ℕ → Except JsError ℕ)
    (h1 : transientByStatus err extra = false)
    (h2 : transientByCode err = false)
    (h3 : transientByMessage err = false)
    (h4 : transientByCode2 err = false)
    (h5 : transientByStatus2 err codes = false)
    (h6 : transientByMessage2 err = false)
    (hfn0 : fn 0 = .error err) (hfn1 : fn 1 = .error err) :
    isTransientError err extra = false ∧
    isTransientError2 err codes = false ∧
    callWithRetry fn extra maxRetries = .error (err, 1) ∧
    (1 ≤ maxRetries → callWithRetry2 fn codes maxRetries = .error (.thrown err 1)) := by
  have hte : isTransientError err extra = false := by
    simp [isTransientError, h1, h2, h3]
  have hte2 : isTransientError2 err codes = false := by
    simp [isTransientError2, h4, h5, h6]
  refine ⟨hte, hte2, ?_, ?_⟩
  · show retryLoopV1 fn extra 0 maxRetries = _
    cases maxRetries with
    | zero => simp [retryLoopV1, hfn0]
    | succ m => simp [retryLoopV1, hfn0, hte]
  · intro hge
    obtain ⟨m, rfl⟩ := Nat.exists_eq_add_of_le hge
    show retryLoopV2 fn codes 1 (1 + m) = _
    have h1m : 1 + m = m + 1 := by omega
    rw [h1m, retryLoopV2_succ_eq, hfn1]
    have hcond : (decide (m = 0) || !isTransientError2 err codes) = true := by
      rw [hte2]
      simp
    simp only [hcond, if_true]

/-- An error carrying no status, no code and an empty message: it matches
none of the classifier rules. -/
def unknownError : JsError := {}

/-- Witness for C5: the fully-unclassified error is terminal for both
classifiers and is rethrown after one attempt. -/
theorem unmatched_error_is_terminal_witness :
    isTransientError unknownError [] = false ∧
    isTransientError2 unknownError [502, 503, 504, 429] = false ∧
    callWithRetry (fun _ => (.error unknownError : Except JsError ℕ)) [] 5 =
      .error (unknownError, 1) ∧
    (1 ≤ 5 → callWithRetry2 (fun _ => (.error unknownError : Except JsError ℕ))
      [502, 503, 504, 429] 5 = .error (.thrown unknownError 1)) :=
  unmatched_error_is_terminal unknownError [] [502, 503, 504, 429] 5
    (fun _ => .error unknownError) rfl rfl rfl rfl rfl rfl rfl rfl

/-- Counterexample to C5 as stated: the classifier does NOT treat the
unmatched error as transient — it returns `false`, and the retry wrapper
rethrows after the first attempt instead of retrying. -/
theorem unmatched_error_not_transient_counterexample :
    isTransientError unknownError [] = false ∧
    callWithRetry (fun _ => (.error unknownError : Except JsError ℕ)) [] 5 =
      .error (unknownError, 1) :=
  ⟨rfl, rfl⟩

/-! Claim C8: date normalization. -/

theorem isDigitChar_not_ws {c : Char} (h : isDigitChar c = true) : isJsWs c = false := by
  simp only [isDigitChar, Bool.and_eq_true, decide_eq_true_eq] at h
  simp only [isJsWs, Bool.or_eq_false_iff, decide_eq_false_iff_not]
  omega

theorem isSepChar_not_digit {c : Char} (h : isSepChar c = true) : isDigitChar c = false := by
  simp only [isSepChar, Bool.or_eq_true, decide_eq_true_eq] at h
  simp only [isDigitChar, Bool.and_eq_false_iff, decide_eq_false_iff_not]
  omega

theorem dropWhile_cons_of_neg {p : Char → Bool} {a : Char} {l : List Char}
    (h : p a = false) : (a :: l).dropWhile p = a :: l := by
  simp [List.dropWhile_cons, h]

theorem jsTrimL_eq_self {l : List Char}
    (hh : ∀ c, l.head? = some c → isJsWs c = false)
    (hl : ∀ c, l.getLast? = some c → isJsWs c = false) :
    jsTrimL l = l := by
  cases l with
  | nil => rfl
  | cons a t =>
    have ha : isJsWs a = false := hh a rfl
    show (((a :: t).dropWhile isJsWs).reverse.dropWhile isJsWs).reverse = a :: t
    rw [dropWhile_cons_of_neg ha]
    cases hm : (a :: t).reverse with
    | nil => exact absurd hm (by simp)
    | cons b u =>
      have hb : (a :: t).getLast? = some b := by
        rw [← List.head?_reverse, hm]
        rfl
      have hwb : isJsWs b = false := hl b hb
      rw [dropWhile_cons_of_neg hwb, ← hm, List.reverse_reverse]

theorem takeDigitsL_append_sep {d : List Char} {s : Char} {r : List Char}
    (hd : ∀ c ∈ d, isDigitChar c = true) (hs : isDigitChar s = false) :
    takeDigitsL (d ++ s :: r) = (d, s :: r) := by
  induction d with
  | nil => simp [takeDigitsL, hs]
  | cons a t ih =>
    have ha : isDigitChar a = true := hd a (by simp)
    rw [List.cons_append]
    simp only [takeDigitsL, ha, if_true]
    rw [ih (fun c hc => hd c (by simp [hc]))]

theorem takeDigitsL_all_digits {l : List Char} (h : ∀ c ∈ l, isDigitChar c = true) :
    takeDigitsL l = (l, []) := by
  induction l with
  | nil => rfl
  | cons a t ih =>
    have ha : isDigitChar a = true := h a (by simp)
    simp only [takeDigitsL, ha, if_true]
    rw [ih (fun c hc => h c (by simp [hc]))]

theorem isoMatchL_true_elim {l : List Char} (h : isoMatchL l = true) :
    ∃ y1 y2 y3 y4 m1 m2 d1 d2,
      l = [y1, y2, y3, y4, '-', m1, m2, '-', d1, d2] ∧
      isDigitChar y1 = true ∧ isDigitChar y2 = true ∧ isDigitChar y3 = true ∧
      isDigitChar y4 = true ∧ isDigitChar m1 = true ∧ isDigitChar m2 = true ∧
      isDigitChar d1 = true ∧ isDigitChar d2 = true := by
  rcases l with _ | ⟨c0, _ | ⟨c1, _ | ⟨c2, _ | ⟨c3, _ | ⟨c4, _ | ⟨c5, _ | ⟨c6, _ | ⟨c7,
    _ | ⟨c8, _ | ⟨c9, _ | ⟨c10, t⟩⟩⟩⟩⟩⟩⟩⟩⟩⟩⟩ <;>
    simp only [isoMatchL, Bool.and_eq_true, decide_eq_true_eq] at h <;>
    try exact absurd h (by decide)
  obtain ⟨⟨⟨⟨⟨⟨⟨⟨⟨h0, h1⟩, h2⟩, h3⟩, h4⟩, h5⟩, h6⟩, h7⟩, h8⟩, h9⟩ := h
  subst h4
  subst h7
  exact ⟨c0, c1, c2, c3, c5, c6, c8, c9, rfl, h0, h1, h2, h3, h5, h6, h8, h9⟩

theorem getLast?_append_cons {l1 : List Char} {a : Char} {l2 : List Char} :
    (l1 ++ a :: l2).getLast? = (a :: l2).getLast? := by
  rw [List.getLast?_append]
  cases hx : (a :: l2).getLast? with
  | none =>
    rw [List.getLast?_eq_getLast_of_ne_nil (List.cons_ne_nil a l2)] at hx
    exact Option.noConfusion hx
  | some b => rfl

theorem ddmmyyyyMatchL_of_parts {d m y : List Char} {s1 s2 : Char}
    (hd : ∀ c ∈ d, isDigitChar c = true) (hd1 : 1 ≤ d.length) (hd2 : d.length ≤ 2)
    (hm : ∀ c ∈ m, isDigitChar c = true) (hm1 : 1 ≤ m.length) (hm2 : m.length ≤ 2)
    (hy : ∀ c ∈ y, isDigitChar c = true) (hy2 : 2 ≤ y.length) (hy4 : y.length ≤ 4)
    (hs1 : isSepChar s1 = true) (hs2 : isSepChar s2 = true) :
    ddmmyyyyMatchL (d ++ s1 :: (m ++ s2 :: y)) = some (d, m, y) := by
  have t1 : takeDigitsL (d ++ s1 :: (m ++ s2 :: y)) = (d, s1 :: (m ++ s2 :: y)) :=
    takeDigitsL_append_sep hd (isSepChar_not_digit hs1)
  have t2 : takeDigitsL (m ++ s2 :: y) = (m, s2 :: y) :=
    takeDigitsL_append_sep hm (isSepChar_not_digit hs2)
  have t3 : takeDigitsL y = (y, []) := takeDigitsL_all_digits hy
  have c1 : (decide (d.length = 0) || decide (2 < d.length)) = false := by
    simp only [Bool.or_eq_false_iff, decide_eq_false_iff_not]
    omega
  have c2 : (decide (m.length = 0) || decide (2 < m.length)) = false := by
    simp only [Bool.or_eq_false_iff, decide_eq_false_iff_not]
    omega
  have c3 : (decide (y.length < 2) || decide (4 < y.length)) = false := by
    simp only [Bool.or_eq_false_iff, decide_eq_false_iff_not]
    omega
  simp only [ddmmyyyyMatchL, t1, t2, t3, c1, c2, c3, hs1, hs2, Bool.false_eq_true,
    if_false, if_true]

theorem isoMatchL_false_of_parts {d : List Char} {s1 : Char} {r : List Char}
    (hd1 : 1 ≤ d.length) (hd2 : d.length ≤ 2) (hs1 : isSepChar s1 = true) :
    isoMatchL (d ++ s1 :: r) = false := by
  have hnd : isDigitChar s1 = false := isSepChar_not_digit hs1
  cases hiso : isoMatchL (d ++ s1 :: r) with
  | false => rfl
  | true =>
    obtain ⟨y1, y2, y3, y4, m1, m2, d1, d2, heq, h1, h2, h3, h4, h5, h6, h7, h8⟩ :=
      isoMatchL_true_elim hiso
    rcases d with _ | ⟨a, _ | ⟨b, _ | ⟨c, t⟩⟩⟩
    · simp at hd1
    · simp only [List.cons_append, List.nil_append] at heq
      injection heq with ha htail
      injection htail with hs htail2
      rw [hs, h2] at hnd
      exact absurd hnd (by decide)
    · simp only [List.cons_append, List.nil_append] at heq
      injection heq with ha htail
      injection htail with hb htail2
      injection htail2 with hs htail3
      rw [hs, h3] at hnd
      exact absurd hnd (by decide)
    · simp only [List.length_cons] at hd2
      omega

/-- Claim C8: the date normalizer returns `null`/`undefined` unchanged;
returns an input already matching `YYYY-MM-DD` unchanged; normalizes every
`D{1,2}[sep]M{1,2}[sep]Y{2,4}` input (separators `/`, `-`, `.`) to
year-month-day with day and month zero-padded to width 2 and a 2-digit
year `YY` expanded to `2000 + YY`; returns an input matching no rule (the
general date parse failing included) unchanged; and in particular maps
`"2025-11-20"` to itself, `"20/11/25"` to `"2025-11-20"`, and
`"not-a-date"` to itself. -/
theorem formatDateForXero_spec (fallbackParse : String → Option String) :
    (formatDateForXero fallbackParse none = none) ∧
    (∀ s : String, isoMatchL s.data = true →
      formatDateForXero fallbackParse (some s) = some s) ∧
    (∀ (d m y : List Char) (s1 s2 : Char),
      (∀ c ∈ d, isDigitChar c = true) → 1 ≤ d.length → d.length ≤ 2 →
      (∀ c ∈ m, isDigitChar c = true) → 1 ≤ m.length → m.length ≤ 2 →
      (∀ c ∈ y, isDigitChar c = true) → 2 ≤ y.length → y.length ≤ 4 →
      isSepChar s1 = true → isSepChar s2 = true →
      formatDateForXero fallbackParse (some (String.mk (d ++ s1 :: (m ++ s2 :: y)))) =
        some (String.mk
          ((if y.length = 2 then (Nat.repr (2000 + digitsToNat y)).data else y) ++
            '-' :: (List.replicate (2 - m.length) '0' ++ m) ++
            '-' :: (List.replicate (2 - d.length) '0' ++ d)))) ∧
    (∀ s : String, s.data ≠ [] → isoMatchL (jsTrimL s.data) = false →
      ddmmyyyyMatchL (jsTrimL s.data) = none →
      fallbackParse (String.mk (jsTrimL s.data)) = none →
      formatDateForXero fallbackParse (some s) = some s) ∧
    (formatDateForXero fallbackParse (some "2025-11-20") = some "2025-11-20") ∧
    (formatDateForXero fallbackParse (some "20/11/25") = some "2025-11-20") ∧
    (fallbackParse "not-a-date" = none →
      formatDateForXero fallbackParse (some "not-a-date") = some "not-a-date") := by
  refine ⟨rfl, ?_, ?_, ?_, rfl, rfl, ?_⟩
  · intro s hiso
    obtain ⟨y1, y2, y3, y4, m1, m2, d1, d2, heq, h1, h2, h3, h4, h5, h6, h7, h8⟩ :=
      isoMatchL_true_elim hiso
    have hne : s.data ≠ [] := by rw [heq]; simp
    have htrim : jsTrimL s.data = s.data := by
      apply jsTrimL_eq_self
      · intro c hc
        rw [heq] at hc
        cases hc
        exact isDigitChar_not_ws h1
      · intro c hc
        rw [heq] at hc
        have : some d2 = some c := by rw [← hc]; rfl
        cases this
        exact isDigitChar_not_ws h8
    simp only [formatDateForXero]
    rw [if_neg hne, htrim, hiso]
    rfl
  · intro d m y s1 s2 hd hd1 hd2 hm hm1 hm2 hy hy2 hy4 hs1 hs2
    obtain ⟨a, d', rfl⟩ : ∃ a d', d = a :: d' := by
      cases d with
      | nil => simp at hd1
      | cons a d' => exact ⟨a, d', rfl⟩
    obtain ⟨y1, y', rfl⟩ : ∃ y1 y', y = y1 :: y' := by
      cases y with
      | nil => simp at hy2
      | cons y1 y' => exact ⟨y1, y', rfl⟩
    have hne : (a :: d') ++ s1 :: (m ++ s2 :: (y1 :: y')) ≠ [] := by simp
    have hhead : ((a :: d') ++ s1 :: (m ++ s2 :: (y1 :: y'))).head? = some a := rfl
    have hlast : ((a :: d') ++ s1 :: (m ++ s2 :: (y1 :: y'))).getLast? =
        (y1 :: y').getLast? := by
      have e1 : (a :: d') ++ s1 :: (m ++ s2 :: (y1 :: y')) =
          ((a :: d') ++ s1 :: m) ++ s2 :: (y1 :: y') := by
        simp [List.cons_append, List.append_assoc]
      rw [e1, getLast?_append_cons]
      show ([s2] ++ (y1 :: y')).getLast? = _
      rw [getLast?_append_cons]
    have htrim : jsTrimL ((a :: d') ++ s1 :: (m ++ s2 :: (y1 :: y'))) =
        (a :: d') ++ s1 :: (m ++ s2 :: (y1 :: y')) := by
      apply jsTrimL_eq_self
      · intro c hc
        rw [hhead] at hc
        cases hc
        exact isDigitChar_not_ws (hd a (by simp))
      · intro c hc
        rw [hlast, List.getLast?_eq_getLast_of_ne_nil (List.cons_ne_nil y1 y')] at hc
        cases hc
        exact isDigitChar_not_ws (hy _ (List.getLast_mem _))
    have hiso : isoMatchL ((a :: d') ++ s1 :: (m ++ s2 :: (y1 :: y'))) = false :=
      isoMatchL_false_of_parts hd1 hd2 hs1
    have hdmy : ddmmyyyyMatchL ((a :: d') ++ s1 :: (m ++ s2 :: (y1 :: y'))) =
        some (a :: d', m, y1 :: y') :=
      ddmmyyyyMatchL_of_parts hd hd1 hd2 hm hm1 hm2 hy hy2 hy4 hs1 hs2
    simp only [formatDateForXero]
    rw [if_neg hne, htrim, hiso, hdmy]
    rfl
  · intro s hne hiso hdmy hfb
    simp only [formatDateForXero]
    rw [if_neg hne, hiso, hdmy, hfb]
    rfl
  · intro h
    simp only [formatDateForXero]
    rw [if_neg (by decide : ¬("not-a-date".data = []))]
    rw [show jsTrimL "not-a-date".data = "not-a-date".data from rfl]
    rw [show isoMatchL "not-a-date".data = false from rfl]
    rw [show ddmmyyyyMatchL "not-a-date".data = none from rfl]
    rw [show String.mk "not-a-date".data = "not-a-date" from rfl, h]
    rfl

/-- Witness for C8: the day-month-year rule at `"7/3/99"` (2-digit year,
1-digit day and month) and the pass-through rule at `"not-a-date"` with a
failing general parse. -/
theorem formatDateForXero_spec_witness :
    formatDateForXero (fun _ => none) (some "7/3/99") = some "2099-03-07" ∧
    formatDateForXero (fun _ => none) (some "not-a-date") = some "not-a-date" := by
  constructor
  · exact (formatDateForXero_spec (fun _ => none)).2.2.1 ['7'] ['3'] ['9', '9'] '/' '/'
      (by decide) (by decide) (by decide) (by decide) (by decide) (by decide)
      (by decide) (by decide) (by decide) (by decide) (by decide)
  · exact (formatDateForXero_spec (fun _ => none)).2.2.2.2.2.2 rfl
